import Mathlib

/-!
Verification development for the `go-music-players/notifications` dispatch
core (`interface.go`, `notifier_linux.go`).  The Go code is embedded
shallowly: the `Notifier` struct becomes a record of its mutable fields,
the D-Bus transport is abstracted into an oracle value (`CallResult`)
describing the reply the bus would give to the single method call an
operation can make, and each Go method becomes a pure function returning
the new state, the transport call it made (if any), and the error it
returned.
-/

namespace Notifications

/-- Track metadata, `TrackInfo` in `interface.go`.  `duration` is Go's
`time.Duration`, an `int64` nanosecond count, modelled as `Int`. -/
structure TrackInfo where
  title : String
  artist : String
  album : String
  station : String
  imageURL : String
  duration : Int
deriving DecidableEq, Repr

/-- Go's `PlaybackState` is a named string type with three constants. -/
abbrev PlaybackState := String

/-- The `StatePlaying` constant of `interface.go`. -/
def StatePlaying : PlaybackState := "Playing"

/-- The `StatePaused` constant of `interface.go`. -/
def StatePaused : PlaybackState := "Paused"

/-- The `StateStopped` constant of `interface.go`. -/
def StateStopped : PlaybackState := "Stopped"

/-- Notification configuration, `Options` in `interface.go`.
`timeout` is an `int32` in Go; no arithmetic is performed on it. -/
structure Options where
  appName : String
  icon : String
  timeout : Int
  notifyOnPause : Bool
  replaceExisting : Bool
deriving DecidableEq, Repr

/-- `DefaultOptions` in `interface.go`. -/
def DefaultOptions (appName : String) : Options :=
  { appName := appName
    icon := "media-playback-start"
    timeout := 5000
    notifyOnPause := false
    replaceExisting := true }

/-- A value carried in a D-Bus reply body: either a `uint32`, or a value
whose Go type assertion to `uint32` fails. -/
inductive BusValue where
  | u32 (id : Nat)
  | other
deriving DecidableEq, Repr

/-- Oracle for one D-Bus round trip: `err` models `call.Err != nil` and
`body` models `call.Body`. -/
structure CallResult where
  err : Bool
  body : List BusValue
deriving DecidableEq, Repr

/-- The error `Notify`, `NotifyNow` and `showNotification` can return: a
wrapped transport failure (`failed to show notification: ...`). -/
inductive NotifyError where
  | transportError
deriving DecidableEq, Repr

/-- The `Notifier` struct of `notifier_linux.go`, without the `conn`
field: the connection itself is abstracted into the `CallResult` oracle
passed to each operation. -/
structure Notifier where
  options : Options
  lastID : String
  replaceID : Nat
deriving DecidableEq, Repr

/-- The positional arguments of the `org.freedesktop.Notifications.Notify`
wire call, in the order the Go code passes them. -/
structure NotifyCall where
  appName : String
  replacesID : Nat
  appIcon : String
  summary : String
  body : String
  actions : List String
  hints : List (String × BusValue)
  expireTimeout : Int
deriving DecidableEq, Repr

/-- Derived track identity key, `fmt.Sprintf("%s-%s-%s", track.Title,
track.Artist, track.Album)` at line 72 of `notifier_linux.go`. -/
def trackID (t : TrackInfo) : String :=
  t.title ++ "-" ++ t.artist ++ "-" ++ t.album

/-- The literal the Go source prepends to the body when paused (the pause
glyph followed by a space, source bytes `c3 a2 c2 b8 20`). -/
def pauseGlyph : String := "â¸ "

/-- `showNotification` of `notifier_linux.go`: builds the wire call's
arguments, performs the call (whose outcome is the oracle `res`), and on
success stores the returned `uint32` handle when `replaceExisting` is
set.  Returns the new state, the call made and the error returned. -/
def showNotification (n : Notifier) (track : TrackInfo) (state : PlaybackState)
    (res : CallResult) : Notifier × NotifyCall × Option NotifyError :=
  let bodyBase :=
    if track.artist ≠ "" ∧ track.album ≠ "" then track.artist ++ "\n" ++ track.album
    else if track.artist ≠ "" then track.artist
    else if track.station ≠ "" then track.station
    else "Now Playing"
  let body := if state = StatePaused then pauseGlyph ++ bodyBase else bodyBase
  let summary := if track.title = "" then "Now Playing" else track.title
  let appName := if n.options.appName = "" then "Music Player" else n.options.appName
  let icon := if n.options.icon = "" then "media-playback-start" else n.options.icon
  let replacesID := if n.options.replaceExisting = true then n.replaceID else 0
  let call : NotifyCall :=
    { appName := appName
      replacesID := replacesID
      appIcon := icon
      summary := summary
      body := body
      actions := []
      hints := []
      expireTimeout := n.options.timeout }
  if res.err = true then (n, call, some NotifyError.transportError)
  else
    let stored :=
      if n.options.replaceExisting = true then
        match res.body with
        | BusValue.u32 id :: _ => { n with replaceID := id }
        | _ => n
      else n
    (stored, call, none)

/-- `Notify` of `notifier_linux.go`: the deduplicating update operation.
The middle component is the transport call made, `none` when the call was
suppressed. -/
def Notify (n : Notifier) (track : Option TrackInfo) (state : PlaybackState)
    (res : CallResult) : Notifier × Option NotifyCall × Option NotifyError :=
  match track with
  | none => (n, none, none)
  | some t =>
    if t.title = "" ∧ t.artist = "" then (n, none, none)
    else if state = StatePaused ∧ n.options.notifyOnPause = false then (n, none, none)
    else if trackID t = n.lastID then (n, none, none)
    else
      let n1 : Notifier := { n with lastID := trackID t }
      let r := showNotification n1 t state res
      (r.1, some r.2.1, r.2.2)

/-- `NotifyNow` of `notifier_linux.go`: shows a notification immediately
without deduplication. -/
def NotifyNow (n : Notifier) (track : Option TrackInfo) (state : PlaybackState)
    (res : CallResult) : Notifier × Option NotifyCall × Option NotifyError :=
  match track with
  | none => (n, none, none)
  | some t =>
    let r := showNotification n t state res
    (r.1, some r.2.1, r.2.2)

/-- The errors `NewNotifier` can return: session-bus connection failure,
or the `GetCapabilities` availability probe failing. -/
inductive NewNotifierError where
  | connectFailed
  | unavailable
deriving DecidableEq, Repr

/-- Outcome of `NewNotifier`, together with a trace of what happened to
the bus-connection resource. -/
structure NewResult where
  notifier : Option Notifier
  err : Option NewNotifierError
  connOpened : Bool
  connClosed : Bool
deriving DecidableEq, Repr

/-- `NewNotifier` of `notifier_linux.go`: `connectOk` models whether
`dbus.ConnectSessionBus` succeeds, `probeOk` whether the
`GetCapabilities` probe call succeeds.  On probe failure the code runs
`conn.Close()` before returning the error. -/
def NewNotifier (options : Options) (connectOk : Bool) (probeOk : Bool) : NewResult :=
  if connectOk = false then
    { notifier := none
      err := some NewNotifierError.connectFailed
      connOpened := false
      connClosed := false }
  else if probeOk = false then
    { notifier := none
      err := some NewNotifierError.unavailable
      connOpened := true
      connClosed := true }
  else
    { notifier := some { options := options, lastID := "", replaceID := 0 }
      err := none
      connOpened := true
      connClosed := false }

/-- Formatter rule 1 as stated in the specification: summary is the title,
or the literal "Now Playing" when the title is empty. -/
def specSummary (t : TrackInfo) : String :=
  if t.title = "" then "Now Playing" else t.title

/-- Formatter rule 2 as stated in the specification: the body base. -/
def specBodyBase (t : TrackInfo) : String :=
  if t.artist ≠ "" ∧ t.album ≠ "" then t.artist ++ "\n" ++ t.album
  else if t.artist ≠ "" then t.artist
  else if t.station ≠ "" then t.station
  else "Now Playing"

/-- Formatter rule 3 as stated in the specification: when paused, the body
gets the pause-glyph-and-space marker in front. -/
def specBody (t : TrackInfo) (s : PlaybackState) : String :=
  if s = StatePaused then pauseGlyph ++ specBodyBase t else specBodyBase t

/-- Formatter rule 4 as stated in the specification: app-name default. -/
def specAppName (o : Options) : String :=
  if o.appName = "" then "Music Player" else o.appName

/-- Formatter rule 5 as stated in the specification: icon default. -/
def specIcon (o : Options) : String :=
  if o.icon = "" then "media-playback-start" else o.icon

/-- Sample configuration used for concrete evaluations. -/
def sampleOptions : Options := DefaultOptions "Foo"

/-- A freshly constructed notifier (empty `lastID`, zero handle). -/
def sampleNotifier : Notifier := { options := sampleOptions, lastID := "", replaceID := 0 }

/-- A notifier that has already shown some notification. -/
def sampleNotifier2 : Notifier := { options := sampleOptions, lastID := "--", replaceID := 9 }

/-- A sample track with full metadata. -/
def sampleTrack : TrackInfo :=
  { title := "A", artist := "B", album := "C", station := "", imageURL := "", duration := 0 }

/-- A sample track differing from `sampleTrack` in the title. -/
def sampleTrack2 : TrackInfo :=
  { title := "X", artist := "B", album := "C", station := "", imageURL := "", duration := 0 }

/-- A track with empty title and artist: the "nothing playing" shape. -/
def emptyTrack : TrackInfo :=
  { title := "", artist := "", album := "", station := "S", imageURL := "I", duration := 3 }

/-- A successful D-Bus reply carrying the daemon-assigned handle. -/
def okReply (h : Nat) : CallResult := { err := false, body := [BusValue.u32 h] }

/-- A failed D-Bus round trip. -/
def errReply : CallResult := { err := true, body := [] }

/-- First colliding track for the identity key: `("a", "b-c", "")`. -/
def collideTrack1 : TrackInfo :=
  { title := "a", artist := "b-c", album := "", station := "", imageURL := "", duration := 0 }

/-- Second colliding track for the identity key: `("a-b", "c", "")`. -/
def collideTrack2 : TrackInfo :=
  { title := "a-b", artist := "c", album := "", station := "", imageURL := "", duration := 0 }

/-- The new state after `showNotification` keeps `lastID` unchanged: only
the stored handle can be written. -/
theorem showNotification_lastID (n : Notifier) (t : TrackInfo) (s : PlaybackState)
    (res : CallResult) : (showNotification n t s res).1.lastID = n.lastID := by
  simp only [showNotification]
  split
  · rfl
  · dsimp only
    split
    · split <;> rfl
    · rfl

/-- The new state after `showNotification` keeps `options` unchanged. -/
theorem showNotification_options (n : Notifier) (t : TrackInfo) (s : PlaybackState)
    (res : CallResult) : (showNotification n t s res).1.options = n.options := by
  simp only [showNotification]
  split
  · rfl
  · dsimp only
    split
    · split <;> rfl
    · rfl

/-- When the transport call fails, `showNotification` leaves the state
exactly as it was and returns the wrapped transport error. -/
theorem showNotification_err (n : Notifier) (t : TrackInfo) (s : PlaybackState)
    (res : CallResult) (h : res.err = true) :
    (showNotification n t s res).1 = n ∧
    (showNotification n t s res).2.2 = some NotifyError.transportError := by
  simp only [showNotification, h]
  exact ⟨rfl, rfl⟩

/-- On a successful reply whose first body value is the `uint32` handle
`h`, with replace mode on, `showNotification` stores `h` as the new
`replaceID`. -/
theorem showNotification_stores_handle (n : Notifier) (t : TrackInfo) (s : PlaybackState)
    (h : Nat) (rest : List BusValue) (hre : n.options.replaceExisting = true) :
    (showNotification n t s ⟨false, BusValue.u32 h :: rest⟩).1 = { n with replaceID := h } := by
  simp [showNotification, hre]

/-- The replace id passed on the wire is the stored handle when replace
mode is on, and `0` otherwise. -/
theorem showNotification_replacesID (n : Notifier) (t : TrackInfo) (s : PlaybackState)
    (res : CallResult) :
    ((showNotification n t s res).2.1).replacesID =
      (if n.options.replaceExisting = true then n.replaceID else 0) := by
  simp only [showNotification]
  split
  · rfl
  · rfl

/-- The track-identity key only depends on title, artist and album. -/
theorem trackID_congr (t t' : TrackInfo) (h1 : t'.title = t.title)
    (h2 : t'.artist = t.artist) (h3 : t'.album = t.album) :
    trackID t' = trackID t := by
  simp [trackID, h1, h2, h3]

/-- When all three guards pass, `Notify` first commits the identity key
and then performs the transport call via `showNotification`. -/
theorem notify_emit_state (n : Notifier) (t : TrackInfo) (s : PlaybackState)
    (res : CallResult)
    (h1 : ¬(t.title = "" ∧ t.artist = ""))
    (h2 : ¬(s = StatePaused ∧ n.options.notifyOnPause = false))
    (h3 : trackID t ≠ n.lastID) :
    Notify n (some t) s res =
      ((showNotification { n with lastID := trackID t } t s res).1,
       some (showNotification { n with lastID := trackID t } t s res).2.1,
       (showNotification { n with lastID := trackID t } t s res).2.2) := by
  simp [Notify, h1, h2, h3]

/-- A second `Notify` call whose track has the same title, artist and
album as the first call's track is always a complete no-op. -/
theorem notify_second_noop (n : Notifier) (t t' : TrackInfo) (s : PlaybackState)
    (r r' : CallResult) (ht : t'.title = t.title) (ha : t'.artist = t.artist)
    (hb : t'.album = t.album) :
    Notify (Notify n (some t) s r).1 (some t') s r' =
      ((Notify n (some t) s r).1, none, none) := by
  have hid : trackID t' = trackID t := trackID_congr t t' ht ha hb
  by_cases h1 : t.title = "" ∧ t.artist = ""
  · have e1 : Notify n (some t) s r = (n, none, none) := by simp [Notify, h1.1, h1.2]
    rw [e1]
    simp [Notify, ht, ha, h1.1, h1.2]
  · by_cases h2 : s = StatePaused ∧ n.options.notifyOnPause = false
    · have e1 : Notify n (some t) s r = (n, none, none) := by simp [Notify, h1, h2.1, h2.2]
      rw [e1]
      by_cases h1' : t'.title = "" ∧ t'.artist = ""
      · simp [Notify, h1'.1, h1'.2]
      · simp [Notify, h1', h2.1, h2.2]
    · by_cases h3 : trackID t = n.lastID
      · have e1 : Notify n (some t) s r = (n, none, none) := by simp [Notify, h1, h2, h3]
        rw [e1]
        by_cases h1' : t'.title = "" ∧ t'.artist = ""
        · simp [Notify, h1'.1, h1'.2]
        · have hg3 : trackID t' = n.lastID := by rw [hid, h3]
          simp [Notify, h1', h2, hg3]
      · have e1 : (Notify n (some t) s r).1 =
            (showNotification { n with lastID := trackID t } t s r).1 := by
          simp [Notify, h1, h2, h3]
        have hlast : (Notify n (some t) s r).1.lastID = trackID t := by
          rw [e1, showNotification_lastID]
        have hopts : (Notify n (some t) s r).1.options = n.options := by
          rw [e1, showNotification_options]
        by_cases h1' : t'.title = "" ∧ t'.artist = ""
        · simp [Notify, h1'.1, h1'.2]
        · have hg3 : trackID t' = (Notify n (some t) s r).1.lastID := by
            rw [hlast, hid]
          simp [Notify, h1', hopts, h2, hg3]

/-- A second `Notify` call passing all guards and carrying a different
identity key does make a transport call. -/
theorem notify_second_emits (n : Notifier) (t t' : TrackInfo) (s : PlaybackState)
    (r r' : CallResult)
    (h1 : ¬(t.title = "" ∧ t.artist = ""))
    (h1' : ¬(t'.title = "" ∧ t'.artist = ""))
    (h2 : ¬(s = StatePaused ∧ n.options.notifyOnPause = false))
    (h4 : trackID t' ≠ trackID t) :
    ((Notify (Notify n (some t) s r).1 (some t') s r').2.1).isSome = true := by
  by_cases h3 : trackID t = n.lastID
  · have e1 : Notify n (some t) s r = (n, none, none) := by simp [Notify, h1, h2, h3]
    rw [e1]
    have hg3 : ¬ trackID t' = n.lastID := by rw [← h3]; exact h4
    simp [Notify, h1', h2, hg3]
  · have e1 : (Notify n (some t) s r).1 =
        (showNotification { n with lastID := trackID t } t s r).1 := by
      simp [Notify, h1, h2, h3]
    have hlast : (Notify n (some t) s r).1.lastID = trackID t := by
      rw [e1, showNotification_lastID]
    have hopts : (Notify n (some t) s r).1.options = n.options := by
      rw [e1, showNotification_options]
    generalize hm : (Notify n (some t) s r).1 = m at hlast hopts ⊢
    have hg3 : ¬ trackID t' = m.lastID := by rw [hlast]; exact h4
    simp [Notify, h1', hopts, h2, hg3]

/-- C1 counterexample: the claim "a change to any of title, artist or
album causes a new transport call" fails on the code, because the "-"
separator of the identity key may occur inside fields.  The track
("a", "b-c", "") and the track ("a-b", "c", "") differ in title and
artist, the first `Notify` call emits, yet the second is suppressed. -/
theorem notify_dedup_threshold_cex :
    collideTrack2.title ≠ collideTrack1.title ∧
    collideTrack2.artist ≠ collideTrack1.artist ∧
    ((Notify sampleNotifier (some collideTrack1) StatePlaying (okReply 7)).2.1).isSome = true ∧
    (Notify (Notify sampleNotifier (some collideTrack1) StatePlaying (okReply 7)).1
        (some collideTrack2) StatePlaying (okReply 8)).2.1 = none := by
  decide

/-- C1 (amended): two `Notify` calls with bit-identical track and state
produce at most one transport call — the second is a complete no-op;
likewise when only station, imageURL or duration differ; and a change to
title, artist or album causes a new transport call provided the
concatenated identity keys actually differ (the "-" separator can occur
in field content) and neither the guard on empty title-and-artist nor
pause suppression applies. -/
theorem notify_dedup_threshold_amended :
    (∀ (n : Notifier) (t : TrackInfo) (s : PlaybackState) (r r' : CallResult),
       Notify (Notify n (some t) s r).1 (some t) s r' =
         ((Notify n (some t) s r).1, none, none))
  ∧ (∀ (n : Notifier) (t t' : TrackInfo) (s : PlaybackState) (r r' : CallResult),
       t'.title = t.title → t'.artist = t.artist → t'.album = t.album →
       Notify (Notify n (some t) s r).1 (some t') s r' =
         ((Notify n (some t) s r).1, none, none))
  ∧ (∀ (n : Notifier) (t t' : TrackInfo) (s : PlaybackState) (r r' : CallResult),
       ¬(t.title = "" ∧ t.artist = "") → ¬(t'.title = "" ∧ t'.artist = "") →
       ¬(s = StatePaused ∧ n.options.notifyOnPause = false) →
       trackID t' ≠ trackID t →
       ((Notify (Notify n (some t) s r).1 (some t') s r').2.1).isSome = true) := by
  refine ⟨?_, ?_, ?_⟩
  · intro n t s r r'
    exact notify_second_noop n t t s r r' rfl rfl rfl
  · intro n t t' s r r' ht ha hb
    exact notify_second_noop n t t' s r r' ht ha hb
  · intro n t t' s r r' h1 h1' h2 h4
    exact notify_second_emits n t t' s r r' h1 h1' h2 h4

/-- C1 witness: concrete instance of the amended re-emission clause. -/
theorem notify_dedup_threshold_witness :
    (¬(sampleTrack.title = "" ∧ sampleTrack.artist = "") ∧
     ¬(sampleTrack2.title = "" ∧ sampleTrack2.artist = "") ∧
     ¬(StatePlaying = StatePaused ∧ sampleNotifier.options.notifyOnPause = false) ∧
     trackID sampleTrack2 ≠ trackID sampleTrack) ∧
    ((Notify (Notify sampleNotifier (some sampleTrack) StatePlaying (okReply 7)).1
        (some sampleTrack2) StatePlaying (okReply 8)).2.1).isSome = true :=
  ⟨by decide,
   notify_dedup_threshold_amended.2.2 sampleNotifier sampleTrack sampleTrack2 StatePlaying
     (okReply 7) (okReply 8) (by decide) (by decide) (by decide) (by decide)⟩

/-- C2 counterexample: the identity key is not injective on
(title, artist, album): the triples of `collideTrack1` and
`collideTrack2` differ, but their keys are both "a-b-c-". -/
theorem trackID_injective_cex :
    (collideTrack1.title, collideTrack1.artist, collideTrack1.album) ≠
      (collideTrack2.title, collideTrack2.artist, collideTrack2.album) ∧
    trackID collideTrack1 = trackID collideTrack2 := by
  decide

/-- C2 (amended): component-wise equality of (title, artist, album)
implies identity-key equality, but the converse fails: the "-" separator
used by `trackID` can occur in legal field content, so two tracks with
different triples can share a key. -/
theorem trackID_injectivity_amended :
    (∀ t t' : TrackInfo, t.title = t'.title → t.artist = t'.artist →
       t.album = t'.album → trackID t = trackID t')
  ∧ (∃ t t' : TrackInfo, t.title ≠ t'.title ∧ trackID t = trackID t') := by
  constructor
  · intro t t' h1 h2 h3
    exact trackID_congr t' t h1 h2 h3
  · exact ⟨collideTrack1, collideTrack2, by decide, by decide⟩

/-- C2 witness: concrete instance of the congruence direction. -/
theorem trackID_injectivity_witness :
    (sampleTrack.title = sampleTrack.title ∧ sampleTrack.artist = sampleTrack.artist ∧
     sampleTrack.album = sampleTrack.album) ∧
    trackID sampleTrack = trackID sampleTrack :=
  ⟨by decide,
   trackID_injectivity_amended.1 sampleTrack sampleTrack rfl rfl rfl⟩

/-- C3: with replace mode on, after a first successful `Notify` whose
reply carried the `uint32` handle `h`, the second `Notify` for a track
with a distinct identity key passes `h` as the wire call's replace id;
with replace mode off, every wire call carries replace id 0. -/
theorem replace_semantics :
    (∀ (n : Notifier) (t t' : TrackInfo) (s s' : PlaybackState) (h : Nat) (res2 : CallResult),
       n.options.replaceExisting = true →
       ¬(t.title = "" ∧ t.artist = "") →
       ¬(s = StatePaused ∧ n.options.notifyOnPause = false) →
       trackID t ≠ n.lastID →
       ¬(t'.title = "" ∧ t'.artist = "") →
       ¬(s' = StatePaused ∧ n.options.notifyOnPause = false) →
       trackID t' ≠ trackID t →
       ((Notify (Notify n (some t) s ⟨false, [BusValue.u32 h]⟩).1
           (some t') s' res2).2.1).map NotifyCall.replacesID = some h)
  ∧ (∀ (n : Notifier) (t : TrackInfo) (s : PlaybackState) (res : CallResult),
       n.options.replaceExisting = false →
       ((showNotification n t s res).2.1).replacesID = 0) := by
  refine ⟨?_, ?_⟩
  · intro n t t' s s' h res2 hre h1 h2 h3 h1' h2' h4
    have e1 := notify_emit_state n t s ⟨false, [BusValue.u32 h]⟩ h1 h2 h3
    have est : (Notify n (some t) s ⟨false, [BusValue.u32 h]⟩).1 =
        { n with lastID := trackID t, replaceID := h } := by
      rw [e1]
      exact showNotification_stores_handle { n with lastID := trackID t } t s h [] hre
    rw [est]
    have h2'' : ¬(s' = StatePaused ∧
        ({ n with lastID := trackID t, replaceID := h } : Notifier).options.notifyOnPause
          = false) := h2'
    have h4' : trackID t' ≠
        ({ n with lastID := trackID t, replaceID := h } : Notifier).lastID := h4
    have e2 := notify_emit_state { n with lastID := trackID t, replaceID := h } t' s' res2
      h1' h2'' h4'
    rw [e2]
    simp [showNotification_replacesID, hre]
  · intro n t s res hre
    rw [showNotification_replacesID]
    simp [hre]

/-- C3 witness: concrete two-call run through the replace clause. -/
theorem replace_semantics_witness :
    (sampleNotifier.options.replaceExisting = true ∧
     ¬(sampleTrack.title = "" ∧ sampleTrack.artist = "") ∧
     ¬(StatePlaying = StatePaused ∧ sampleNotifier.options.notifyOnPause = false) ∧
     trackID sampleTrack ≠ sampleNotifier.lastID ∧
     ¬(sampleTrack2.title = "" ∧ sampleTrack2.artist = "") ∧
     trackID sampleTrack2 ≠ trackID sampleTrack) ∧
    ((Notify (Notify sampleNotifier (some sampleTrack) StatePlaying (okReply 42)).1
        (some sampleTrack2) StatePlaying (okReply 43)).2.1).map NotifyCall.replacesID
      = some 42 :=
  ⟨by decide,
   replace_semantics.1 sampleNotifier sampleTrack sampleTrack2 StatePlaying StatePlaying 42
     (okReply 43) (by decide) (by decide) (by decide) (by decide) (by decide) (by decide)
     (by decide)⟩

/-- C4: the notification formatting is total (in this embedding the
formatter is a Lean function, hence defined on every input) and the wire
call's fields follow the specified rules: title-or-"Now Playing" summary,
artist/album/station body with pause marker, app-name and icon defaults,
and the timeout passed verbatim. -/
theorem formatter_rules (n : Notifier) (t : TrackInfo) (s : PlaybackState)
    (res : CallResult) :
    (showNotification n t s res).2.1 =
      { appName := specAppName n.options
        replacesID := if n.options.replaceExisting = true then n.replaceID else 0
        appIcon := specIcon n.options
        summary := specSummary t
        body := specBody t s
        actions := []
        hints := []
        expireTimeout := n.options.timeout } := by
  simp only [showNotification, specAppName, specIcon, specSummary, specBody, specBodyBase]
  split
  · rfl
  · rfl

/-- C5: with `notifyOnPause = false`, `Notify` on a paused state is a
complete no-op, whatever the track and the stored identity. -/
theorem pause_suppression (n : Notifier) (t : TrackInfo) (res : CallResult)
    (h : n.options.notifyOnPause = false) :
    Notify n (some t) StatePaused res = (n, none, none) := by
  by_cases h1 : t.title = "" ∧ t.artist = ""
  · simp [Notify, h1.1, h1.2]
  · simp [Notify, h1, h]

/-- C5 witness. -/
theorem pause_suppression_witness :
    sampleNotifier.options.notifyOnPause = false ∧
    Notify sampleNotifier (some sampleTrack) StatePaused errReply =
      (sampleNotifier, none, none) :=
  ⟨by decide, pause_suppression sampleNotifier sampleTrack errReply (by decide)⟩

/-- C6: a track with empty title and empty artist makes `Notify` a
complete no-op regardless of prior state: no transport call, no change to
the stored identity or handle — the guard fires before the identity
comparison. -/
theorem nothing_playing_guard (n : Notifier) (t : TrackInfo) (s : PlaybackState)
    (res : CallResult) (h1 : t.title = "") (h2 : t.artist = "") :
    Notify n (some t) s res = (n, none, none) := by
  simp [Notify, h1, h2]

/-- C6 witness: `sampleNotifier2` even stores the identity key of the
empty track ("--"), and the guard still short-circuits first. -/
theorem nothing_playing_guard_witness :
    (emptyTrack.title = "" ∧ emptyTrack.artist = "" ∧
     trackID emptyTrack = sampleNotifier2.lastID) ∧
    Notify sampleNotifier2 (some emptyTrack) StatePlaying (okReply 5) =
      (sampleNotifier2, none, none) :=
  ⟨by decide,
   nothing_playing_guard sampleNotifier2 emptyTrack StatePlaying (okReply 5) rfl rfl⟩

/-- C7: when the transport call fails, `Notify` returns the transport
error, the stored handle is untouched, while the identity key was already
committed to the new track before the send, so an identical retry is
suppressed. -/
theorem transport_failure_state (n : Notifier) (t : TrackInfo) (s : PlaybackState)
    (res : CallResult) (herr : res.err = true)
    (h1 : ¬(t.title = "" ∧ t.artist = ""))
    (h2 : ¬(s = StatePaused ∧ n.options.notifyOnPause = false))
    (h3 : trackID t ≠ n.lastID) :
    (Notify n (some t) s res).2.2 = some NotifyError.transportError ∧
    (Notify n (some t) s res).1.replaceID = n.replaceID ∧
    (Notify n (some t) s res).1.lastID = trackID t ∧
    ∀ res' : CallResult,
      Notify (Notify n (some t) s res).1 (some t) s res' =
        ((Notify n (some t) s res).1, none, none) := by
  have e1 := notify_emit_state n t s res h1 h2 h3
  have herr2 := showNotification_err { n with lastID := trackID t } t s res herr
  refine ⟨?_, ?_, ?_, ?_⟩
  · rw [e1]
    exact herr2.2
  · rw [e1]
    rw [show ((showNotification { n with lastID := trackID t } t s res).1,
        some (showNotification { n with lastID := trackID t } t s res).2.1,
        (showNotification { n with lastID := trackID t } t s res).2.2).1 =
        (showNotification { n with lastID := trackID t } t s res).1 from rfl, herr2.1]
  · rw [e1]
    rw [show ((showNotification { n with lastID := trackID t } t s res).1,
        some (showNotification { n with lastID := trackID t } t s res).2.1,
        (showNotification { n with lastID := trackID t } t s res).2.2).1 =
        (showNotification { n with lastID := trackID t } t s res).1 from rfl, herr2.1]
  · intro res'
    exact notify_second_noop n t t s res res' rfl rfl rfl

/-- C7 witness: failed send, then a suppressed identical retry. -/
theorem transport_failure_state_witness :
    (errReply.err = true ∧
     ¬(sampleTrack.title = "" ∧ sampleTrack.artist = "") ∧
     ¬(StatePlaying = StatePaused ∧ sampleNotifier.options.notifyOnPause = false) ∧
     trackID sampleTrack ≠ sampleNotifier.lastID) ∧
    ((Notify sampleNotifier (some sampleTrack) StatePlaying errReply).2.2 =
       some NotifyError.transportError ∧
     (Notify sampleNotifier (some sampleTrack) StatePlaying errReply).1.replaceID = 0 ∧
     (Notify sampleNotifier (some sampleTrack) StatePlaying errReply).1.lastID =
       trackID sampleTrack ∧
     Notify (Notify sampleNotifier (some sampleTrack) StatePlaying errReply).1
         (some sampleTrack) StatePlaying (okReply 6) =
       ((Notify sampleNotifier (some sampleTrack) StatePlaying errReply).1, none, none)) :=
  ⟨by decide, by
    have h := transport_failure_state sampleNotifier sampleTrack StatePlaying errReply
      (by decide) (by decide) (by decide) (by decide)
    exact ⟨h.1, h.2.1, h.2.2.1, h.2.2.2 (okReply 6)⟩⟩

/-- C8: `NotifyNow` bypasses every suppression guard except the absent
track: it always makes a transport call — in particular twice in a row
for the same track and state — while a `none` track is a no-op. -/
theorem force_update_bypass :
    (∀ (n : Notifier) (t : TrackInfo) (s : PlaybackState) (res : CallResult),
       ((NotifyNow n (some t) s res).2.1).isSome = true)
  ∧ (∀ (n : Notifier) (t : TrackInfo) (s : PlaybackState) (res res' : CallResult),
       ((NotifyNow (NotifyNow n (some t) s res).1 (some t) s res').2.1).isSome = true)
  ∧ (∀ (n : Notifier) (s : PlaybackState) (res : CallResult),
       NotifyNow n none s res = (n, none, none)) := by
  refine ⟨?_, ?_, ?_⟩
  · intro n t s res
    simp [NotifyNow]
  · intro n t s res res'
    simp [NotifyNow]
  · intro n s res
    rfl

/-- C9: when the session-bus connection opens but the capability probe
fails, `NewNotifier` closes the partially-opened connection before
returning the unavailability error. -/
theorem probe_failure_releases_connection (opts : Options) :
    (NewNotifier opts true false).notifier = none ∧
    (NewNotifier opts true false).err = some NewNotifierError.unavailable ∧
    (NewNotifier opts true false).connOpened = true ∧
    (NewNotifier opts true false).connClosed = true :=
  ⟨rfl, rfl, rfl, rfl⟩

/-- C10: `NotifyNow` never modifies the stored deduplication identity or
the options: since `Notifier` has only the three fields `options`,
`lastID`, `replaceID`, only the stored handle can change, so a
`NotifyNow` call can never cause a later `Notify` for the same track to
become suppressed. -/
theorem force_update_frame (n : Notifier) (track : Option TrackInfo)
    (s : PlaybackState) (res : CallResult) :
    (NotifyNow n track s res).1.lastID = n.lastID ∧
    (NotifyNow n track s res).1.options = n.options := by
  cases track with
  | none => exact ⟨rfl, rfl⟩
  | some t => exact ⟨showNotification_lastID n t s res, showNotification_options n t s res⟩

end Notifications
